import Mathlib

/-!
Shallow embedding of the snake game simulation from `src/main.rs` of
KHTangent/snake-but-dragon.

The game is a Bevy app; we embed the simulation-relevant state and the
per-frame system chain as pure Lean functions.  Grid positions are stored
in the source as `Vec2` (f32) but every value ever written is an integer
(grid coordinates, unit displacement vectors, the off-board park position
`(-5, -5)`), so positions are modelled as pairs of integers.

Randomness (`rng().random_range`) is modelled by an explicit stream of
draw results passed in as a list; the unbounded recursion of
`get_valid_food_placement` becomes structural recursion on that stream,
returning `none` when the stream is exhausted (i.e. `none` models a run
of the Rust function that has not yet terminated after that many draws).

The Bevy scheduling facts used by the embedding, read off `fn main`:
  * `FixedUpdate` runs, gated by `run_if(in_state(GameStates::InGame))`,
    the chain `move_player → handle_food_eating → move_segments →
    (check_self_intersect, handle_food_eating) → spawn_food_if_needed`
    after `process_tick`.
  * `move_player`, `move_segments` and `check_self_intersect` each begin
    with `if !tick_timer.timer.finished() { return; }`;
    `handle_food_eating` and `spawn_food_if_needed` do not.
  * `Single<..., With<Food>>` causes `handle_food_eating` to be skipped
    when no food entity exists.
  * `NextState::set(GameOver)` takes effect before the next frame; no
    system in the chain after `check_self_intersect` reads the game
    state, so the embedding may apply it immediately.
  * Command application points inserted in the chain make the segment
    entity spawned by `handle_food_eating` visible to later systems of
    the same frame, appended after the existing segment entities.
-/

namespace SnakeDragon

/-- `Direction` enum from the source: Up, Down, Left, Right. -/
inductive Direction where
  | Up : Direction
  | Down : Direction
  | Left : Direction
  | Right : Direction
deriving DecidableEq, Repr

/-- Grid position, the integer content of the source's `Vec2` values. -/
structure Pos where
  x : Int
  y : Int
deriving DecidableEq, Repr

instance : Add Pos where
  add p q := ⟨p.x + q.x, p.y + q.y⟩

theorem Pos.add_def (p q : Pos) : p + q = ⟨p.x + q.x, p.y + q.y⟩ := rfl

/-- `GRID_SIZE = Vec2::new(40.0, 22.0)`, x component. -/
def GRID_SIZE_X : Int := 40

/-- `GRID_SIZE`, y component. -/
def GRID_SIZE_Y : Int := 22

/-- `const INITIAL_SEGMENTS: usize = 4`. -/
def INITIAL_SEGMENTS : Nat := 4

/-- `Direction::to_vec2`. -/
def Direction.to_vec2 : Direction → Pos
  | Direction.Up => ⟨0, 1⟩
  | Direction.Down => ⟨0, -1⟩
  | Direction.Left => ⟨-1, 0⟩
  | Direction.Right => ⟨1, 0⟩

/-- `Direction::inverse`. -/
def Direction.inverse : Direction → Direction
  | Direction.Up => Direction.Down
  | Direction.Down => Direction.Up
  | Direction.Left => Direction.Right
  | Direction.Right => Direction.Left

/-- `GameStates` enum: InGame (default), GameOver. -/
inductive GameStates where
  | InGame : GameStates
  | GameOver : GameStates
deriving DecidableEq, Repr

/-- The `Player` component: `facing`, `next_movement`, `segment_positions`
(a `VecDeque<Vec2>`, front at list head, back at list end). -/
structure Player where
  facing : Direction
  next_movement : Direction
  segment_positions : List Pos
deriving DecidableEq, Repr

/-- The whole simulation-relevant world state:
the player component and its `GridPos`, the `GridPos` values of the
spawned `Segment` entities (in spawn order), the `GridPos` of the `Food`
entity when one exists, the number of undrained `FoodEated` events, and
the game state. -/
structure World where
  player : Player
  player_pos : Pos
  segment_entities : List Pos
  food : Option Pos
  eated_events : Nat
  game_state : GameStates
deriving DecidableEq, Repr

/-- `make_player`: head at `(GRID_SIZE.x / 2.0, GRID_SIZE.y / 2.0)`,
facing and next movement `Right`, `INITIAL_SEGMENTS` history entries all
at `(-5, -5)`. -/
def make_player : Player × Pos :=
  (⟨Direction.Right, Direction.Right, List.replicate INITIAL_SEGMENTS ⟨-5, -5⟩⟩,
   ⟨GRID_SIZE_X / 2, GRID_SIZE_Y / 2⟩)

/-- `make_segment` gives the new segment entity `GridPos::new(-5.0, -5.0)`. -/
def make_segment : Pos := ⟨-5, -5⟩

/-- `setup`: spawns the player and `INITIAL_SEGMENTS` segment entities;
no food exists yet, no events are pending, the default state is InGame. -/
def initial_world : World :=
  { player := make_player.1
    player_pos := make_player.2
    segment_entities := List.replicate INITIAL_SEGMENTS make_segment
    food := none
    eated_events := 0
    game_state := GameStates.InGame }

/-- `get_valid_food_placement`: rejection sampling.  Each element of
`draws` is the result of one `rng().random_range(0..GRID_SIZE.x as i32)`
× `random_range(0..GRID_SIZE.y as i32)` draw pair; a draw equal to the
player position or to a segment history entry recurses on the rest, and
`none` models the recursion still running after the stream is spent. -/
def get_valid_food_placement (player_pos : Pos) (segs : List Pos) :
    List Pos → Option Pos
  | [] => none
  | potential :: rest =>
    if potential = player_pos ∨ segs.contains potential then
      get_valid_food_placement player_pos segs rest
    else
      some potential

/-- `move_player`: gated on the tick timer; drains `FoodEated` events
into `just_ate`; sets `facing := next_movement`; pushes the pre-move
head position to the back of `segment_positions`; advances the head by
`facing.to_vec2()`; pops the history front unless `just_ate`. -/
def move_player (tick : Bool) (w : World) : World :=
  if !tick then w else
  let just_ate : Bool := w.eated_events ≠ 0
  let facing := w.player.next_movement
  let pushed := w.player.segment_positions ++ [w.player_pos]
  let segs := if just_ate then pushed else pushed.tail
  { w with
    player := { facing := facing
                next_movement := w.player.next_movement
                segment_positions := segs }
    player_pos := w.player_pos + facing.to_vec2
    eated_events := 0 }

/-- `handle_food_eating`: skipped when no food entity exists (failed
`Single`); otherwise, when the head is on the food cell, despawns the
food, spawns one new parked segment entity and writes a `FoodEated`
event.  Not gated on the tick timer. -/
def handle_food_eating (w : World) : World :=
  match w.food with
  | none => w
  | some food_pos =>
    if w.player_pos ≠ food_pos then w
    else
      { w with
        food := none
        segment_entities := w.segment_entities ++ [make_segment]
        eated_events := w.eated_events + 1 }

/-- `move_segments`: gated on the tick timer; segment entity `i` takes
position `segment_positions[i]` when that history entry exists, else
keeps its previous position. -/
def move_segments (tick : Bool) (w : World) : World :=
  if !tick then w else
  { w with
    segment_entities :=
      w.segment_entities.enum.map fun ie =>
        match w.player.segment_positions.get? ie.1 with
        | some p => p
        | none => ie.2 }

/-- `check_self_intersect`: gated on the tick timer; when any segment
entity position equals the head position, sets the next state to
GameOver. -/
def check_self_intersect (tick : Bool) (w : World) : World :=
  if !tick then w else
  if w.segment_entities.contains w.player_pos then
    { w with game_state := GameStates.GameOver }
  else w

/-- `spawn_food_if_needed`: when no food exists, spawns one at
`get_valid_food_placement` of the head and segment history.  Not gated
on the tick timer.  A `none` placement (spent draw stream) models the
Rust recursion not having returned, so no food is spawned. -/
def spawn_food_if_needed (draws : List Pos) (w : World) : World :=
  match w.food with
  | some _ => w
  | none =>
    match get_valid_food_placement w.player_pos w.player.segment_positions draws with
    | some p => { w with food := some p }
    | none => w

/-- One `FixedUpdate` frame: when the state is GameOver the whole gated
chain is skipped (`run_if(in_state(InGame))`, which also gates
`process_tick`); otherwise the chain runs in order.  `tick` is the value
of `tick_timer.timer.finished()` for this frame. -/
def frame (tick : Bool) (draws : List Pos) (w : World) : World :=
  match w.game_state with
  | GameStates.GameOver => w
  | GameStates.InGame =>
    let w1 := move_player tick w
    let w2 := handle_food_eating w1
    let w3 := move_segments tick w2
    let w4 := check_self_intersect tick w3
    let w5 := handle_food_eating w4
    spawn_food_if_needed draws w5

/-- `n` consecutive tick frames (`tick = true`), each with an empty draw
stream. -/
def ticksN : Nat → World → World
  | 0, w => w
  | n + 1, w => ticksN n (frame true [] w)

/-- The game state is InGame at the start of each of `n` consecutive
tick frames. -/
def in_game_during : Nat → World → Bool
  | 0, _ => true
  | n + 1, w =>
    decide (w.game_state = GameStates.InGame) && in_game_during n (frame true [] w)

/-- A run: the two per-frame inputs (timer finished flag, RNG draw
stream) for each successive frame, folded through `frame`. -/
def run_frames : List (Bool × List Pos) → World → World
  | [], w => w
  | (t, d) :: rest, w => run_frames rest (frame t d w)

/-- Which directional keys were just pressed this `Update` poll (W /
ArrowUp, A / ArrowLeft, D / ArrowRight, S / ArrowDown merged per key). -/
structure KeyPresses where
  up : Bool
  left : Bool
  right : Bool
  down : Bool
deriving DecidableEq, Repr

/-- The candidate `new_direction` computed by `handle_inputs`: the four
key checks run in source order Up, Left, Right, Down, later matches
overwriting earlier ones. -/
def candidate_direction (k : KeyPresses) : Option Direction :=
  let nd : Option Direction := none
  let nd := if k.up then some Direction.Up else nd
  let nd := if k.left then some Direction.Left else nd
  let nd := if k.right then some Direction.Right else nd
  if k.down then some Direction.Down else nd

/-- `handle_inputs`: writes the candidate direction into
`next_movement` only when the current `facing` is not its inverse. -/
def handle_inputs (k : KeyPresses) (p : Player) : Player :=
  match candidate_direction k with
  | none => p
  | some d =>
    if p.facing ≠ d.inverse then
      { p with next_movement := d }
    else p

/-- Every cell of the 40 × 22 grid. -/
def all_cells : List Pos :=
  (List.range 40).flatMap fun x : Nat =>
    (List.range 22).map fun y : Nat => ⟨(x : Int), (y : Int)⟩

/-! ## Helper lemmas -/

theorem Direction.inverse_inverse (d : Direction) : d.inverse.inverse = d := by
  cases d <;> rfl

theorem mem_all_cells (p : Pos) :
    p ∈ all_cells ↔ 0 ≤ p.x ∧ p.x < GRID_SIZE_X ∧ 0 ≤ p.y ∧ p.y < GRID_SIZE_Y := by
  constructor
  · intro h
    rw [all_cells, List.mem_flatMap] at h
    obtain ⟨x, hx, h⟩ := h
    rw [List.mem_map] at h
    obtain ⟨y, hy, rfl⟩ := h
    rw [List.mem_range] at hx
    rw [List.mem_range] at hy
    simp only [GRID_SIZE_X, GRID_SIZE_Y]
    refine ⟨Int.ofNat_nonneg x, ?_, Int.ofNat_nonneg y, ?_⟩ <;> exact_mod_cast ‹_›
  · intro h
    obtain ⟨h1, h2, h3, h4⟩ := h
    simp only [GRID_SIZE_X] at h2
    simp only [GRID_SIZE_Y] at h4
    rw [all_cells, List.mem_flatMap]
    refine ⟨p.x.toNat, ?_, ?_⟩
    · rw [List.mem_range]; omega
    · rw [List.mem_map]
      refine ⟨p.y.toNat, ?_, ?_⟩
      · rw [List.mem_range]; omega
      · have hx' : (↑p.x.toNat : Int) = p.x := Int.toNat_of_nonneg h1
        have hy' : (↑p.y.toNat : Int) = p.y := Int.toNat_of_nonneg h3
        rw [hx', hy']

theorem get_valid_food_placement_avoids (hp : Pos) (segs : List Pos) :
    ∀ draws p, get_valid_food_placement hp segs draws = some p →
      p ≠ hp ∧ segs.contains p = false := by
  intro draws
  induction draws with
  | nil => intro p h; simp [get_valid_food_placement] at h
  | cons a rest ih =>
    intro p h
    unfold get_valid_food_placement at h
    by_cases hc : a = hp ∨ segs.contains a
    · rw [if_pos hc] at h
      exact ih p h
    · rw [if_neg hc] at h
      push_neg at hc
      cases h
      exact ⟨hc.1, by simpa using hc.2⟩

theorem handle_food_eating_player (w : World) :
    (handle_food_eating w).player = w.player := by
  unfold handle_food_eating
  cases w.food <;> simp <;> split <;> rfl

theorem handle_food_eating_player_pos (w : World) :
    (handle_food_eating w).player_pos = w.player_pos := by
  unfold handle_food_eating
  cases w.food <;> simp <;> split <;> rfl

theorem handle_food_eating_game_state (w : World) :
    (handle_food_eating w).game_state = w.game_state := by
  unfold handle_food_eating
  cases w.food <;> simp <;> split <;> rfl

theorem move_segments_player (tick : Bool) (w : World) :
    (move_segments tick w).player = w.player := by
  unfold move_segments
  split <;> rfl

theorem move_segments_player_pos (tick : Bool) (w : World) :
    (move_segments tick w).player_pos = w.player_pos := by
  unfold move_segments
  split <;> rfl

theorem move_segments_game_state (tick : Bool) (w : World) :
    (move_segments tick w).game_state = w.game_state := by
  unfold move_segments
  split <;> rfl

theorem move_segments_food (tick : Bool) (w : World) :
    (move_segments tick w).food = w.food := by
  unfold move_segments
  split <;> rfl

theorem move_segments_eated_events (tick : Bool) (w : World) :
    (move_segments tick w).eated_events = w.eated_events := by
  unfold move_segments
  split <;> rfl

theorem check_self_intersect_player (tick : Bool) (w : World) :
    (check_self_intersect tick w).player = w.player := by
  unfold check_self_intersect
  split <;> try rfl
  split <;> rfl

theorem check_self_intersect_player_pos (tick : Bool) (w : World) :
    (check_self_intersect tick w).player_pos = w.player_pos := by
  unfold check_self_intersect
  split <;> try rfl
  split <;> rfl

theorem check_self_intersect_food (tick : Bool) (w : World) :
    (check_self_intersect tick w).food = w.food := by
  unfold check_self_intersect
  split <;> try rfl
  split <;> rfl

theorem check_self_intersect_eated_events (tick : Bool) (w : World) :
    (check_self_intersect tick w).eated_events = w.eated_events := by
  unfold check_self_intersect
  split <;> try rfl
  split <;> rfl

theorem spawn_food_if_needed_player (draws : List Pos) (w : World) :
    (spawn_food_if_needed draws w).player = w.player := by
  unfold spawn_food_if_needed
  cases w.food <;> simp
  split <;> rfl

theorem spawn_food_if_needed_player_pos (draws : List Pos) (w : World) :
    (spawn_food_if_needed draws w).player_pos = w.player_pos := by
  unfold spawn_food_if_needed
  cases w.food <;> simp
  split <;> rfl

theorem spawn_food_if_needed_game_state (draws : List Pos) (w : World) :
    (spawn_food_if_needed draws w).game_state = w.game_state := by
  unfold spawn_food_if_needed
  cases w.food <;> simp
  split <;> rfl

theorem spawn_food_if_needed_eated_events (draws : List Pos) (w : World) :
    (spawn_food_if_needed draws w).eated_events = w.eated_events := by
  unfold spawn_food_if_needed
  cases w.food <;> simp
  split <;> rfl

theorem move_player_false (w : World) : move_player false w = w := rfl

theorem move_segments_false (w : World) : move_segments false w = w := rfl

theorem check_self_intersect_false (w : World) : check_self_intersect false w = w := rfl

theorem frame_of_game_over (tick : Bool) (draws : List Pos) (w : World)
    (h : w.game_state = GameStates.GameOver) : frame tick draws w = w := by
  unfold frame
  rw [h]

theorem move_player_true_player_pos (w : World) :
    (move_player true w).player_pos = w.player_pos + w.player.next_movement.to_vec2 := rfl

theorem move_player_true_facing (w : World) :
    (move_player true w).player.facing = w.player.next_movement := rfl

theorem move_player_true_next (w : World) :
    (move_player true w).player.next_movement = w.player.next_movement := rfl

theorem move_player_true_events (w : World) :
    (move_player true w).eated_events = 0 := rfl

theorem move_player_true_food (w : World) :
    (move_player true w).food = w.food := rfl

theorem move_player_true_segs_len (w : World) :
    (move_player true w).player.segment_positions.length =
      w.player.segment_positions.length + (if w.eated_events ≠ 0 then 1 else 0) := by
  by_cases he : w.eated_events ≠ 0 <;>
    simp [move_player, he, List.length_tail]

theorem handle_food_eating_events (w : World) :
    (handle_food_eating w).eated_events =
      if w.food = some w.player_pos then w.eated_events + 1 else w.eated_events := by
  unfold handle_food_eating
  cases hf : w.food with
  | none => dsimp only; rw [if_neg (by simp)]
  | some f =>
    dsimp only
    by_cases hp : w.player_pos = f
    · rw [if_neg (not_not_intro hp), if_pos (by rw [hp])]
    · rw [if_pos hp, if_neg fun hh => hp (Option.some.inj hh).symm]

theorem handle_food_eating_food (w : World) :
    (handle_food_eating w).food =
      if w.food = some w.player_pos then none else w.food := by
  unfold handle_food_eating
  cases hf : w.food with
  | none => dsimp only; rw [if_neg (by simp)]; exact hf
  | some f =>
    dsimp only
    by_cases hp : w.player_pos = f
    · rw [if_neg (not_not_intro hp), if_pos (by rw [hp])]
    · rw [if_pos hp, if_neg fun hh => hp (Option.some.inj hh).symm]
      exact hf

theorem frame_true_player (draws : List Pos) (w : World)
    (h : w.game_state = GameStates.InGame) :
    (frame true draws w).player = (move_player true w).player ∧
    (frame true draws w).player_pos = w.player_pos + w.player.next_movement.to_vec2 := by
  unfold frame
  rw [h]
  dsimp only
  constructor
  · rw [spawn_food_if_needed_player, handle_food_eating_player, check_self_intersect_player,
      move_segments_player, handle_food_eating_player]
  · rw [spawn_food_if_needed_player_pos, handle_food_eating_player_pos,
      check_self_intersect_player_pos, move_segments_player_pos, handle_food_eating_player_pos,
      move_player_true_player_pos]

theorem frame_true_events (draws : List Pos) (w : World)
    (h : w.game_state = GameStates.InGame) :
    (frame true draws w).eated_events =
      if w.food = some (w.player_pos + w.player.next_movement.to_vec2) then 1 else 0 := by
  unfold frame
  rw [h]
  dsimp only
  rw [spawn_food_if_needed_eated_events, handle_food_eating_events,
    check_self_intersect_eated_events, check_self_intersect_food, check_self_intersect_player_pos,
    move_segments_eated_events, move_segments_food, move_segments_player_pos,
    handle_food_eating_events, handle_food_eating_food, handle_food_eating_player_pos,
    move_player_true_events, move_player_true_food, move_player_true_player_pos]
  by_cases hc : w.food = some (w.player_pos + w.player.next_movement.to_vec2) <;> simp [hc]

theorem frame_false_preserves (draws : List Pos) (w : World) :
    (frame false draws w).player = w.player ∧
    (frame false draws w).player_pos = w.player_pos ∧
    (frame false draws w).game_state = w.game_state := by
  cases hg : w.game_state with
  | GameOver => rw [frame_of_game_over false draws w hg]; exact ⟨rfl, rfl, hg⟩
  | InGame =>
    unfold frame
    rw [hg]
    dsimp only
    rw [move_player_false, move_segments_false, check_self_intersect_false]
    refine ⟨?_, ?_, ?_⟩
    · rw [spawn_food_if_needed_player, handle_food_eating_player, handle_food_eating_player]
    · rw [spawn_food_if_needed_player_pos, handle_food_eating_player_pos,
        handle_food_eating_player_pos]
    · rw [spawn_food_if_needed_game_state, handle_food_eating_game_state,
        handle_food_eating_game_state, hg]

/-! ## Claim theorems -/

/-- C9: `Direction::inverse` is an involution — `inverse(inverse(d)) = d`
for each of the four directions — and it pairs Up with Down and Left with
Right. -/
theorem direction_inverse_involution_and_pairing :
    (∀ d : Direction, d.inverse.inverse = d) ∧
    Direction.Up.inverse = Direction.Down ∧
    Direction.Down.inverse = Direction.Up ∧
    Direction.Left.inverse = Direction.Right ∧
    Direction.Right.inverse = Direction.Left :=
  ⟨Direction.inverse_inverse, rfl, rfl, rfl, rfl⟩

/-- C10: at startup the player spawns at the grid centre
`(GRID_SIZE.x / 2, GRID_SIZE.y / 2) = (20, 11)`, facing Right with
pending movement Right, and with exactly `INITIAL_SEGMENTS = 4` segment
history entries, all equal to the off-board position `(-5, -5)`. -/
theorem initial_spawn_state :
    initial_world.player_pos = ⟨GRID_SIZE_X / 2, GRID_SIZE_Y / 2⟩ ∧
    initial_world.player_pos = ⟨20, 11⟩ ∧
    initial_world.player.facing = Direction.Right ∧
    initial_world.player.next_movement = Direction.Right ∧
    initial_world.player.segment_positions.length = INITIAL_SEGMENTS ∧
    INITIAL_SEGMENTS = 4 ∧
    initial_world.player.segment_positions = List.replicate 4 ⟨-5, -5⟩ := by
  refine ⟨rfl, by decide, rfl, rfl, by decide, rfl, by decide⟩

/-- C5: `handle_inputs` never mutates `facing`, and it either leaves
`next_movement` unchanged or writes a direction that is not the inverse
of the current `facing` — so the pending facing is never set to
`inverse(facing)`. -/
theorem handle_inputs_never_reverses (k : KeyPresses) (p : Player) :
    (handle_inputs k p).facing = p.facing ∧
    ((handle_inputs k p).next_movement = p.next_movement ∨
      (handle_inputs k p).next_movement ≠ p.facing.inverse) := by
  unfold handle_inputs
  cases hc : candidate_direction k with
  | none => exact ⟨rfl, Or.inl rfl⟩
  | some d =>
    dsimp only
    by_cases h : p.facing ≠ d.inverse
    · rw [if_pos h]
      refine ⟨rfl, Or.inr ?_⟩
      intro hd
      have hd' : d = p.facing.inverse := hd
      exact h (by rw [hd', Direction.inverse_inverse])
    · rw [if_neg h]
      exact ⟨rfl, Or.inl rfl⟩

/-- C3: whenever `spawn_food_if_needed` actually spawns food (no food
existed, and the placement returned), the spawned cell differs from the
head position and from every entry of the segment history. -/
theorem spawned_food_avoids_snake (w : World) (draws : List Pos) (p : Pos)
    (h0 : w.food = none)
    (h : (spawn_food_if_needed draws w).food = some p) :
    p ≠ w.player_pos ∧ w.player.segment_positions.contains p = false := by
  unfold spawn_food_if_needed at h
  rw [h0] at h
  cases hg : get_valid_food_placement w.player_pos w.player.segment_positions draws with
  | none =>
    rw [hg] at h
    dsimp only at h
    rw [h0] at h
    exact Option.noConfusion h
  | some q =>
    rw [hg] at h
    dsimp only at h
    obtain rfl : q = p := by injection h
    exact get_valid_food_placement_avoids w.player_pos w.player.segment_positions draws q hg

/-- C3 witness: spawning from the initial world with the single draw
`(0, 0)` yields food at `(0, 0)`, off the head and all segments. -/
theorem spawned_food_avoids_snake_witness :
    (⟨0, 0⟩ : Pos) ≠ initial_world.player_pos ∧
    initial_world.player.segment_positions.contains ⟨0, 0⟩ = false :=
  spawned_food_avoids_snake initial_world [⟨0, 0⟩] ⟨0, 0⟩ rfl (by decide)

/-- C4 (evaluation at the failing input): on a board fully occupied by
the snake's segment history, every in-grid RNG draw is rejected, so
`get_valid_food_placement` yields no result for a draw stream of any
length — the source's unbounded recursion never returns and no
win/stalemate fallback exists. -/
theorem food_placement_full_board_no_result (hp : Pos) (draws : List Pos)
    (h : ∀ p ∈ draws, 0 ≤ p.x ∧ p.x < GRID_SIZE_X ∧ 0 ≤ p.y ∧ p.y < GRID_SIZE_Y) :
    get_valid_food_placement hp all_cells draws = none := by
  induction draws with
  | nil => rfl
  | cons a rest ih =>
    have ha : a ∈ all_cells := (mem_all_cells a).mpr (h a (List.mem_cons_self a rest))
    have hc : all_cells.contains a = true := List.elem_eq_true_of_mem ha
    unfold get_valid_food_placement
    rw [if_pos (Or.inr hc)]
    exact ih fun p hp' => h p (List.mem_cons_of_mem a hp')

/-- C4 witness: a concrete in-grid draw stream on the full board is
exhausted without a placement. -/
theorem food_placement_full_board_no_result_witness :
    get_valid_food_placement ⟨0, 0⟩ all_cells [⟨1, 2⟩] = none :=
  food_placement_full_board_no_result ⟨0, 0⟩ [⟨1, 2⟩] (by decide)

/-- C1 counterexample: put food directly ahead of the freshly spawned
snake (head `(20, 11)` moving Right, food at `(21, 11)`).  On the tick
where the food is consumed (the food entity is despawned and the
`FoodEated` event is written), the segment history length stays at 4 —
the front pop is NOT skipped same-tick; the length reaches 5 only on
the following tick, when `move_player` drains the event. -/
theorem growth_is_not_same_tick :
    (frame true [] { initial_world with food := some ⟨21, 11⟩ }).food = none ∧
    (frame true [] { initial_world with food := some ⟨21, 11⟩ }).eated_events = 1 ∧
    (frame true [] { initial_world with food := some ⟨21, 11⟩ }).player.segment_positions.length
      = 4 ∧
    ({ initial_world with food := some ⟨21, 11⟩ } : World).player.segment_positions.length = 4 ∧
    ((frame true [] (frame true [⟨0, 0⟩]
        { initial_world with food := some ⟨21, 11⟩ })).player).segment_positions.length = 5 := by
  refine ⟨by decide, by decide, by decide, by decide, by decide⟩

/-- C1 (amended): on every tick frame in InGame the segment history
length grows by exactly 1 when a `FoodEated` event from the previous
tick's consumption is pending, and stays constant otherwise (so it is
non-decreasing); the event is pending after a tick exactly when that
tick's move landed the head on the food; non-tick frames never change
the length. -/
theorem segment_history_length_dynamics (draws : List Pos) (w : World)
    (h : w.game_state = GameStates.InGame) :
    (frame true draws w).player.segment_positions.length =
      w.player.segment_positions.length + (if w.eated_events ≠ 0 then 1 else 0) ∧
    (frame true draws w).eated_events =
      (if w.food = some (w.player_pos + w.player.next_movement.to_vec2) then 1 else 0) ∧
    (∀ d : List Pos, (frame false d w).player.segment_positions.length =
      w.player.segment_positions.length) := by
  refine ⟨?_, frame_true_events draws w h, ?_⟩
  · rw [(frame_true_player draws w h).1]
    exact move_player_true_segs_len w
  · intro d
    rw [(frame_false_preserves d w).1]

/-- C1 witness: the dynamics at the freshly spawned world. -/
theorem segment_history_length_dynamics_witness :
    (frame true [] initial_world).player.segment_positions.length =
      initial_world.player.segment_positions.length +
        (if initial_world.eated_events ≠ 0 then 1 else 0) ∧
    (frame true [] initial_world).eated_events =
      (if initial_world.food =
          some (initial_world.player_pos + initial_world.player.next_movement.to_vec2)
        then 1 else 0) ∧
    (∀ d : List Pos, (frame false d initial_world).player.segment_positions.length =
      initial_world.player.segment_positions.length) :=
  segment_history_length_dynamics [] initial_world rfl

/-- C2 counterexample: `spawn_food_if_needed` carries no tick-timer
guard, so a food mutation happens on a frame where the tick clock has
not signalled: the initial world has no food, and a single non-tick
frame spawns food at the drawn cell `(0, 0)`. -/
theorem food_spawns_between_ticks :
    initial_world.food = none ∧
    (frame false [⟨0, 0⟩] initial_world).food = some ⟨0, 0⟩ :=
  ⟨rfl, by decide⟩

/-- C2 (amended): `move_player`, `move_segments` and
`check_self_intersect` are tick-gated, so a non-tick frame never mutates
the snake (player component and head position) or the game state; but
`handle_food_eating` and `spawn_food_if_needed` run on every
`FixedUpdate` frame while InGame, so food may be mutated between ticks —
though when food exists and is off the head, a non-tick frame changes
nothing at all. -/
theorem non_tick_frame_effects (draws : List Pos) (w : World) :
    (frame false draws w).player = w.player ∧
    (frame false draws w).player_pos = w.player_pos ∧
    (frame false draws w).game_state = w.game_state ∧
    (∀ f, w.food = some f → f ≠ w.player_pos → frame false draws w = w) := by
  obtain ⟨h1, h2, h3⟩ := frame_false_preserves draws w
  refine ⟨h1, h2, h3, ?_⟩
  intro f hf hne
  have hh : handle_food_eating w = w := by
    unfold handle_food_eating
    rw [hf]
    dsimp only
    rw [if_pos fun hpf => hne (hpf.symm)]
  have hs : spawn_food_if_needed draws w = w := by
    unfold spawn_food_if_needed
    rw [hf]
  cases hg : w.game_state with
  | GameOver => exact frame_of_game_over false draws w hg
  | InGame =>
    unfold frame
    rw [hg]
    dsimp only
    rw [move_player_false, hh, move_segments_false, check_self_intersect_false, hh, hs]

/-- C6: once the game state is GameOver, every subsequent frame — tick
or not, whatever the RNG draws — leaves the whole world unchanged: the
state never returns to InGame and no snake position update ever happens
again. -/
theorem game_over_is_terminal (w : World) (steps : List (Bool × List Pos))
    (h : w.game_state = GameStates.GameOver) :
    run_frames steps w = w := by
  induction steps with
  | nil => rfl
  | cons s rest ih =>
    obtain ⟨t, d⟩ := s
    show run_frames rest (frame t d w) = w
    rw [frame_of_game_over t d w h]
    exact ih

/-- C6 witness: two frames applied to a GameOver world change nothing. -/
theorem game_over_is_terminal_witness :
    run_frames [(true, []), (false, [⟨0, 0⟩])]
        { initial_world with game_state := GameStates.GameOver } =
      { initial_world with game_state := GameStates.GameOver } :=
  game_over_is_terminal { initial_world with game_state := GameStates.GameOver }
    [(true, []), (false, [⟨0, 0⟩])] rfl

/-- C7: with facing and pending facing both `d` and the game remaining
InGame throughout (no self-collision ends the run; food and input do not
affect the head's trajectory), the head position after `N` ticks is the
initial position plus `N` times the unit vector of `d`. -/
theorem head_position_after_n_ticks (w : World) (d : Direction) (n : Nat)
    (hf : w.player.facing = d) (hn : w.player.next_movement = d)
    (hg : in_game_during n w = true) :
    (ticksN n w).player_pos =
      ⟨w.player_pos.x + n * d.to_vec2.x, w.player_pos.y + n * d.to_vec2.y⟩ := by
  induction n generalizing w with
  | zero =>
    show w.player_pos = _
    simp
  | succ n ih =>
    simp only [in_game_during, Bool.and_eq_true, decide_eq_true_eq] at hg
    obtain ⟨hg1, hg2⟩ := hg
    have hw' := frame_true_player [] w hg1
    have hface : (frame true [] w).player.facing = d := by
      rw [hw'.1, move_player_true_facing]; exact hn
    have hnext : (frame true [] w).player.next_movement = d := by
      rw [hw'.1, move_player_true_next]; exact hn
    have hpos : (frame true [] w).player_pos = w.player_pos + d.to_vec2 := by
      rw [hw'.2, hn]
    show (ticksN n (frame true [] w)).player_pos = _
    rw [ih (frame true [] w) hface hnext hg2, hpos, Pos.add_def]
    rw [Pos.mk.injEq]
    constructor <;> dsimp only <;> push_cast <;> ring

/-- C7 witness: four rightward ticks from spawn put the head at
`(20 + 4, 11)`. -/
theorem head_position_after_n_ticks_witness :
    (ticksN 4 initial_world).player_pos = ⟨24, 11⟩ :=
  (head_position_after_n_ticks initial_world Direction.Right 4 rfl rfl (by decide)).trans
    (by decide)

/-- C8 counterexample: after 20 rightward ticks from spawn — with the
game still running — the head sits at `x = 40 = GRID_SIZE_X`, violating
`0 ≤ x < W`: the head is not confined to board bounds. -/
theorem head_exits_board :
    (ticksN 20 initial_world).player_pos.x = GRID_SIZE_X ∧
    ¬ ((ticksN 20 initial_world).player_pos.x < GRID_SIZE_X) ∧
    (ticksN 20 initial_world).game_state = GameStates.InGame := by
  refine ⟨by decide, by decide, by decide⟩

/-- C8 (amended): there is no wraparound — on every tick in InGame the
head position changes by exactly the unit vector of the applied facing,
by plain integer addition with no reduction modulo the board size; in
particular nothing confines the head to the board. -/
theorem head_advance_no_wraparound (draws : List Pos) (w : World)
    (h : w.game_state = GameStates.InGame) :
    (frame true draws w).player_pos = w.player_pos + w.player.next_movement.to_vec2 :=
  (frame_true_player draws w h).2

/-- C8 witness: the first tick from spawn moves the head by exactly
`Right.to_vec2 = (1, 0)`. -/
theorem head_advance_no_wraparound_witness :
    (frame true [] initial_world).player_pos =
      initial_world.player_pos + initial_world.player.next_movement.to_vec2 :=
  head_advance_no_wraparound [] initial_world rfl

end SnakeDragon
